import Mathlib

/-!
Verification of the recording-session controller in
src/src/components/ScreenRecorder.tsx.

The component is a React function component using useState, useRef and
useCallback.  The embedding below models its observable state and the
handlers startRecording, stopRecording, startTimer (the interval
callback), ondataavailable, onstop and downloadRecording as pure state
transformers, together with the React closure-capture discipline that
governs which values each handler sees:

- useState fields (isRecording, recordingTime, currentRecording,
  recordings) and useRef cells (mediaRecorderRef, streamRef, chunksRef,
  timerRef) are fields of CState.  Refs always read the latest value;
  state values read inside a closure are the values captured when that
  closure instance was created.

- stopRecording is memoized with dependency list [isRecording, toast],
  so the memoized instance current at any render has captured the
  current isRecording value.  The interval callback installed by
  startTimer, however, holds the stopRecording instance that was
  current when the invoked startRecording instance was created; that
  instance was created at the last render at which recordingTime
  changed (dependency list of startRecording is [recordingTime, toast];
  the toast function of the toast hook is referentially stable).  On
  the initial mount no such render has happened and the captured
  isRecording is false.  The field memoStopIsRec records the
  isRecording value captured by that held stopRecording instance; it is
  updated exactly when recordingTime changes value, to the isRecording
  value of the resulting render.

- the recordingTime value captured by the memoized startRecording
  instance always equals the current recordingTime state (the memo is
  recreated exactly when recordingTime changes), so the onstop handler
  of a recorder created by startRecording captures the recordingTime
  value that the state held at the moment of the click; it is stored in
  the recorder object as capturedRecordingTime.

Blobs are modelled by their byte sizes (a blob built from chunks is the
list of the chunk sizes; its size is their sum), object URLs and ids by
numeric tokens, timestamps in the session model by an abstract clock.
-/

/-- User-visible notifications raised through the toast hook. -/
inductive Toast
  | started
  | stopped
  | recordingFailed
  | downloadStarted
deriving DecidableEq, Repr

/-- The Recording interface of the source: id, blob (as its chunk
sizes), object URL (as a token), duration in seconds, timestamp (as an
abstract clock value) and size in bytes. -/
structure Recording where
  id : Nat
  chunkSizes : List Nat
  url : Nat
  duration : Nat
  timestamp : Nat
  size : Nat
deriving DecidableEq, Repr

/-- Lifecycle of a MediaRecorder object: recording after start(1000),
stopping between stop() and the asynchronous onstop callback, finalized
once onstop has run. -/
inductive RecPhase
  | recording
  | stopping
  | finalized
deriving DecidableEq, Repr

/-- A MediaRecorder object together with the recordingTime value
captured by the onstop closure that startRecording installed on it. -/
structure MediaRecorderObj where
  capturedRecordingTime : Nat
  phase : RecPhase
deriving DecidableEq, Repr

/-- The combined capture stream; live until each of its tracks has had
track.stop() called on it. -/
structure StreamObj where
  live : Bool
deriving DecidableEq, Repr

/-- An interval installed by startTimer, together with the isRecording
value captured by the stopRecording closure that its callback invokes
(see the header comment on closure capture). -/
structure TimerObj where
  capturedIsRecording : Bool
deriving DecidableEq, Repr

/-- The observable state of the ScreenRecorder component: the four
useState values, the four useRef cells, the closure-capture field
memoStopIsRec, the toasts raised so far, and environment bookkeeping
for capture-resource hygiene (streams whose tracks were stopped,
streams dropped while live, recorders overwritten while still
recording, intervals overwritten without clearInterval), plus a clock
and a fresh-URL counter. -/
structure CState where
  isRecording : Bool
  recordingTime : Nat
  currentRecording : Option Recording
  recordings : List Recording
  mediaRecorderRef : Option MediaRecorderObj
  streamRef : Option StreamObj
  chunks : List Nat
  timerRef : Option TimerObj
  memoStopIsRec : Bool
  toasts : List Toast
  releasedStreams : Nat
  leakedStreams : Nat
  leakedActiveRecorders : Nat
  leakedTimers : Nat
  now : Nat
  nextUrl : Nat
deriving DecidableEq, Repr

/-- Component state on mount: not recording, timer at 0, no current
recording, empty history, all refs null, memoStopIsRec false (no
render with a changed recordingTime has happened yet). -/
def initState : CState :=
  { isRecording := false
    recordingTime := 0
    currentRecording := none
    recordings := []
    mediaRecorderRef := none
    streamRef := none
    chunks := []
    timerRef := none
    memoStopIsRec := false
    toasts := []
    releasedStreams := 0
    leakedStreams := 0
    leakedActiveRecorders := 0
    leakedTimers := 0
    now := 0
    nextUrl := 0 }

/-- Outcome of the two awaited acquisition calls in startRecording:
both getDisplayMedia and getUserMedia resolve, or getDisplayMedia
rejects, or getUserMedia rejects after getDisplayMedia resolved. -/
inductive AcqResult
  | bothOk
  | displayFail
  | audioFail
deriving DecidableEq, Repr

/-- startRecording.  On acquisition failure the catch block only raises
the destructive toast; no state or ref was written before the throw
(the display stream already acquired on an audio failure is dropped
from a local variable without release - it never reaches component
state).  On success: streamRef receives the combined stream (a live
stream previously in streamRef is dropped without track.stop - counted
in leakedStreams), chunksRef is cleared, a recorder in phase recording
is created capturing the current recordingTime for its onstop closure
(a previous recorder still recording is dropped - counted in
leakedActiveRecorders), isRecording is set, recordingTime reset to 0,
and startTimer installs an interval whose callback holds the
stopRecording closure with captured isRecording = memoStopIsRec (a
previous interval handle is overwritten without clearInterval - counted
in leakedTimers).  If recordingTime changed (was nonzero), the
startRecording memo is recreated at the resulting render, where
isRecording is true, so memoStopIsRec becomes true. -/
def startRecording (acq : AcqResult) (s : CState) : CState :=
  match acq with
  | AcqResult.displayFail => { s with toasts := Toast.recordingFailed :: s.toasts }
  | AcqResult.audioFail => { s with toasts := Toast.recordingFailed :: s.toasts }
  | AcqResult.bothOk =>
    { s with
      streamRef := some { live := true }
      leakedStreams := s.leakedStreams +
        (match s.streamRef with
         | some st => if st.live then 1 else 0
         | none => 0)
      chunks := []
      mediaRecorderRef := some { capturedRecordingTime := s.recordingTime, phase := RecPhase.recording }
      leakedActiveRecorders := s.leakedActiveRecorders +
        (match s.mediaRecorderRef with
         | some r => if r.phase = RecPhase.recording then 1 else 0
         | none => 0)
      isRecording := true
      recordingTime := 0
      timerRef := some { capturedIsRecording := s.memoStopIsRec }
      leakedTimers := s.leakedTimers +
        (match s.timerRef with
         | some _ => 1
         | none => 0)
      memoStopIsRec := if s.recordingTime = 0 then s.memoStopIsRec else true
      toasts := Toast.started :: s.toasts }

/-- A stopRecording closure instance with its captured isRecording
value.  Guard as in the source: mediaRecorderRef.current non-null and
the captured isRecording.  When it fires: recorder.stop() (the phase
moves from recording to stopping; a real MediaRecorder would throw on
an inactive recorder, a case none of the modelled flows reaches),
isRecording is cleared, stopTimer clears the interval, and the stopped
toast is raised. -/
def stopRecordingClosure (capturedIsRecording : Bool) (s : CState) : CState :=
  match s.mediaRecorderRef with
  | some r =>
    if capturedIsRecording then
      { s with
        mediaRecorderRef := some { r with phase := if r.phase = RecPhase.recording then RecPhase.stopping else r.phase }
        isRecording := false
        timerRef := none
        toasts := Toast.stopped :: s.toasts }
    else s
  | none => s

/-- The stopRecording instance current at the present render: its
captured isRecording equals the current state value. -/
def stopRecording (s : CState) : CState :=
  stopRecordingClosure s.isRecording s

/-- The pure update applied to recordingTime by the interval callback:
at 179 or above it returns 180, otherwise it increments. -/
def timerStep (t : Nat) : Nat :=
  if 179 ≤ t then 180 else t + 1

/-- One firing of the interval installed in timerRef (no interval, no
effect).  The callback runs the setRecordingTime updater: when the
previous value is at least 179 it first invokes the held stopRecording
closure (captured isRecording = capturedIsRecording of the timer) and
returns 180; otherwise it returns prev + 1.  memoStopIsRec is updated
when recordingTime changes value, to the isRecording value after the
batch. -/
def timerTick (s : CState) : CState :=
  match s.timerRef with
  | none => s
  | some tm =>
    if 179 ≤ s.recordingTime then
      let s1 := stopRecordingClosure tm.capturedIsRecording s
      { s1 with
        recordingTime := 180
        memoStopIsRec := if s.recordingTime = 180 then s1.memoStopIsRec else s1.isRecording }
    else
      { s with
        recordingTime := s.recordingTime + 1
        memoStopIsRec := s.isRecording }

/-- The ondataavailable handler: a delivered chunk is appended to
chunksRef when its size is positive.  The platform delivers data events
only for a recorder that has not finalized. -/
def onDataAvailable (sz : Nat) (s : CState) : CState :=
  match s.mediaRecorderRef with
  | some r =>
    if r.phase = RecPhase.finalized then s
    else if 0 < sz then { s with chunks := s.chunks ++ [sz] } else s
  | none => s

/-- The onstop handler, firing for the recorder in mediaRecorderRef
once it is in phase stopping.  finalizeOk models whether blob assembly
and object-URL creation succeed.  On success: the chunks are
concatenated into a blob, a Recording is built (duration is the
recordingTime value the closure captured at session start), set as
current and prepended to the history, and only then are the stream
tracks stopped and streamRef nulled.  On a finalization throw the
handler aborts before those cleanup lines: no artifact, and the stream
tracks are not stopped.  Either way the platform recorder is inactive
afterwards. -/
def onStop (finalizeOk : Bool) (s : CState) : CState :=
  match s.mediaRecorderRef with
  | some r =>
    if r.phase = RecPhase.stopping then
      if finalizeOk then
        let a : Recording :=
          { id := s.now
            chunkSizes := s.chunks
            url := s.nextUrl
            duration := r.capturedRecordingTime
            timestamp := s.now
            size := s.chunks.sum }
        { s with
          currentRecording := some a
          recordings := a :: s.recordings
          releasedStreams := s.releasedStreams +
            (match s.streamRef with
             | some st => if st.live then 1 else 0
             | none => 0)
          streamRef := none
          mediaRecorderRef := some { r with phase := RecPhase.finalized }
          nextUrl := s.nextUrl + 1 }
      else
        { s with mediaRecorderRef := some { r with phase := RecPhase.finalized } }
    else s
  | none => s

/-- Events driving the component: the user clicking the rendered start
button (with the acquisition outcome), the user clicking the rendered
stop button, the interval firing, a data chunk arriving, and the
asynchronous onstop callback (with the finalization outcome). -/
inductive Ev
  | start (acq : AcqResult)
  | stopClick
  | timerFires
  | dataChunk (sz : Nat)
  | recorderStopped (finalizeOk : Bool)
deriving DecidableEq, Repr

/-- One event step.  The start button is rendered only while
isRecording is false, so a start click while recording cannot occur
and is a no-op at the UI level; the stop click runs the current
stopRecording instance (which carries its own guard). -/
def uiStep (e : Ev) (s : CState) : CState :=
  match e with
  | Ev.start acq => if s.isRecording then s else startRecording acq s
  | Ev.stopClick => stopRecording s
  | Ev.timerFires => timerTick s
  | Ev.dataChunk sz => onDataAvailable sz s
  | Ev.recorderStopped ok => onStop ok s

/-- Run a list of events from a state. -/
def run (evs : List Ev) (s : CState) : CState :=
  evs.foldl (fun st e => uiStep e st) s

/-- The events of one user-driven session: a successful start, k timer
ticks, the delivered data chunks, the stop click, and the onstop
callback with successful finalization. -/
def sessionEvs (k : Nat) (d : List Nat) : List Ev :=
  Ev.start AcqResult.bothOk ::
    (List.replicate k Ev.timerFires ++ d.map Ev.dataChunk ++
      [Ev.stopClick, Ev.recorderStopped true])

/-- Run a list of sessions, each given by its tick count and its
delivered chunk sizes. -/
def runSessions (L : List (Nat × List Nat)) (s : CState) : CState :=
  L.foldl (fun st kd => run (sessionEvs kd.1 kd.2) st) s

/-- Number of MediaRecorder objects currently recording: the one in
mediaRecorderRef when it is in phase recording, plus recorders that
were overwritten while still recording. -/
def activeRecorderCount (s : CState) : Nat :=
  s.leakedActiveRecorders +
    (match s.mediaRecorderRef with
     | some r => if r.phase = RecPhase.recording then 1 else 0
     | none => 0)

/-- Decimal digit character, as JS prints digits (48 is the code of the
zero digit). -/
def digitChar (n : Nat) : Char := Char.ofNat (48 + n)

/-- Two zero-padded decimal digits, as Date.prototype.toISOString
prints a calendar field (faithful for values up to 99). -/
def pad2 (n : Nat) : List Char :=
  [digitChar (n / 10 % 10), digitChar (n % 10)]

/-- Three zero-padded decimal digits for the milliseconds field
(faithful for values up to 999). -/
def pad3 (n : Nat) : List Char :=
  [digitChar (n / 100 % 10), digitChar (n / 10 % 10), digitChar (n % 10)]

/-- Four zero-padded decimal digits for the year field (faithful for
years up to 9999; JS switches to an expanded form beyond that). -/
def pad4 (n : Nat) : List Char :=
  [digitChar (n / 1000 % 10), digitChar (n / 100 % 10), digitChar (n / 10 % 10), digitChar (n % 10)]

/-- A JS Date as printed by toISOString: UTC calendar fields, month
and day one-based. -/
structure JSDate where
  year : Nat
  month : Nat
  day : Nat
  hour : Nat
  minute : Nat
  second : Nat
  ms : Nat
deriving DecidableEq, Repr

/-- Date.prototype.toISOString, as a character list:
YYYY-MM-DDTHH:MM:SS.mmmZ. -/
def toISOString (d : JSDate) : List Char :=
  pad4 d.year ++ '-' :: pad2 d.month ++ '-' :: pad2 d.day ++
    'T' :: pad2 d.hour ++ ':' :: pad2 d.minute ++ ':' :: pad2 d.second ++
    '.' :: pad3 d.ms ++ ['Z']

/-- The ISO 8601 timestamp without milliseconds, following the words of
the spec for the download filename (for comparison with what the code
computes via slice). -/
def iso8601NoMillis (d : JSDate) : List Char :=
  pad4 d.year ++ '-' :: pad2 d.month ++ '-' :: pad2 d.day ++
    'T' :: pad2 d.hour ++ ':' :: pad2 d.minute ++ ':' :: pad2 d.second

/-- The filename computed by downloadRecording from the timestamp of
the recording: the template literal around
recording.timestamp.toISOString().slice(0, 19), where slice(0, 19)
takes the first 19 characters. -/
def downloadFilename (d : JSDate) : List Char :=
  "screen-recording-".toList ++ (toISOString d).take 19 ++ ".webm".toList

theorem run_nil (s : CState) : run [] s = s := rfl

theorem run_cons (e : Ev) (evs : List Ev) (s : CState) :
    run (e :: evs) s = run evs (uiStep e s) := rfl

theorem run_append (xs ys : List Ev) (s : CState) :
    run (xs ++ ys) s = run ys (run xs s) := by
  simp [run, List.foldl_append]

theorem stopRecordingClosure_frame (b : Bool) (s : CState) :
    (stopRecordingClosure b s).recordings = s.recordings ∧
    (stopRecordingClosure b s).currentRecording = s.currentRecording ∧
    (stopRecordingClosure b s).recordingTime = s.recordingTime ∧
    (stopRecordingClosure b s).chunks = s.chunks ∧
    (stopRecordingClosure b s).streamRef = s.streamRef ∧
    (stopRecordingClosure b s).releasedStreams = s.releasedStreams := by
  cases hr : s.mediaRecorderRef <;> cases b <;>
    simp [stopRecordingClosure, hr]

/-- Invariant holding between the start of a session and the firing of
onstop: either the session is still recording (isRecording set, the
recorder in the ref is in phase recording), or the timer callback has
already run the held stopRecording closure with a captured isRecording
of true (isRecording cleared, interval cleared, recorder stopping). -/
def Mid (s : CState) : Prop :=
  (s.isRecording = true ∧
    ∃ r, s.mediaRecorderRef = some r ∧ r.phase = RecPhase.recording) ∨
  (s.isRecording = false ∧ s.timerRef = none ∧
    ∃ r, s.mediaRecorderRef = some r ∧ r.phase = RecPhase.stopping)

/-- Events that may occur between the start click of a session and its
stop click: timer firings and chunk deliveries. -/
def MidEv : Ev → Bool
  | Ev.timerFires => true
  | Ev.dataChunk _ => true
  | _ => false

theorem timerTick_frame (s : CState) :
    (timerTick s).recordings = s.recordings ∧
    (timerTick s).currentRecording = s.currentRecording ∧
    (timerTick s).chunks = s.chunks ∧
    (timerTick s).streamRef = s.streamRef ∧
    (timerTick s).releasedStreams = s.releasedStreams := by
  cases ht : s.timerRef with
  | none => simp [timerTick, ht]
  | some tm =>
    by_cases hge : 179 ≤ s.recordingTime <;>
      simp [timerTick, ht, hge, stopRecordingClosure_frame]

theorem onDataAvailable_frame (sz : Nat) (s : CState) :
    (onDataAvailable sz s).recordings = s.recordings ∧
    (onDataAvailable sz s).currentRecording = s.currentRecording ∧
    (onDataAvailable sz s).isRecording = s.isRecording ∧
    (onDataAvailable sz s).timerRef = s.timerRef ∧
    (onDataAvailable sz s).mediaRecorderRef = s.mediaRecorderRef ∧
    (onDataAvailable sz s).streamRef = s.streamRef ∧
    (onDataAvailable sz s).releasedStreams = s.releasedStreams := by
  cases hr : s.mediaRecorderRef with
  | none => simp [onDataAvailable, hr]
  | some r =>
    by_cases hp : r.phase = RecPhase.finalized <;>
      by_cases hs : 0 < sz <;>
        simp [onDataAvailable, hr, hp, hs]

theorem timerTick_mid (s : CState) (h : Mid s) : Mid (timerTick s) := by
  cases ht : s.timerRef with
  | none => simpa [timerTick, ht] using h
  | some tm =>
    rcases h with ⟨hrec, r, hr, hp⟩ | ⟨_, htn, _⟩
    · by_cases hge : 179 ≤ s.recordingTime
      · cases hcap : tm.capturedIsRecording
        · left
          refine ⟨?_, r, ?_, hp⟩ <;>
            simp [timerTick, ht, hge, hcap, stopRecordingClosure, hr, hrec]
        · right
          refine ⟨?_, ?_, { r with phase := RecPhase.stopping }, ?_, rfl⟩ <;>
            simp [timerTick, ht, hge, hcap, stopRecordingClosure, hr, hp]
      · left
        refine ⟨?_, r, ?_, hp⟩ <;> simp [timerTick, ht, hge, hr, hrec]
    · rw [ht] at htn
      exact absurd htn (by simp)

theorem onDataAvailable_mid (sz : Nat) (s : CState) (h : Mid s) :
    Mid (onDataAvailable sz s) := by
  rcases onDataAvailable_frame sz s with ⟨-, -, h1, h2, h3, -, -⟩
  rcases h with ⟨ha, r, hr, hp⟩ | ⟨ha, hb, r, hr, hp⟩
  · exact Or.inl ⟨h1.trans ha, r, h3.trans hr, hp⟩
  · exact Or.inr ⟨h1.trans ha, h2.trans hb, r, h3.trans hr, hp⟩

theorem mid_step_spec (e : Ev) (he : MidEv e = true) (s : CState) :
    (uiStep e s).recordings = s.recordings ∧
    (uiStep e s).currentRecording = s.currentRecording ∧
    (Mid s → Mid (uiStep e s)) := by
  cases e with
  | timerFires =>
    exact ⟨(timerTick_frame s).1, (timerTick_frame s).2.1, timerTick_mid s⟩
  | dataChunk sz =>
    exact ⟨(onDataAvailable_frame sz s).1, (onDataAvailable_frame sz s).2.1,
      onDataAvailable_mid sz s⟩
  | start acq => simp [MidEv] at he
  | stopClick => simp [MidEv] at he
  | recorderStopped ok => simp [MidEv] at he

theorem run_mid_spec (evs : List Ev) (hall : ∀ e ∈ evs, MidEv e = true) :
    ∀ s : CState,
      (run evs s).recordings = s.recordings ∧
      (run evs s).currentRecording = s.currentRecording ∧
      (Mid s → Mid (run evs s)) := by
  induction evs with
  | nil => intro s; exact ⟨rfl, rfl, fun h => h⟩
  | cons e evs ih =>
    intro s
    have he : MidEv e = true := hall e (List.mem_cons_self e evs)
    have hall2 : ∀ x ∈ evs, MidEv x = true :=
      fun x hx => hall x (List.mem_cons_of_mem e hx)
    rcases mid_step_spec e he s with ⟨h1, h2, h3⟩
    rcases ih hall2 (uiStep e s) with ⟨g1, g2, g3⟩
    rw [run_cons]
    exact ⟨g1.trans h1, g2.trans h2, fun h => g3 (h3 h)⟩

theorem stopClick_after_mid (s : CState) (h : Mid s) :
    (stopRecording s).isRecording = false ∧
    (stopRecording s).timerRef = none ∧
    (∃ r, (stopRecording s).mediaRecorderRef = some r ∧
      r.phase = RecPhase.stopping) ∧
    (stopRecording s).recordings = s.recordings ∧
    (stopRecording s).currentRecording = s.currentRecording := by
  rcases h with ⟨ha, r, hr, hp⟩ | ⟨ha, hb, r, hr, hp⟩
  · refine ⟨?_, ?_, ⟨{ r with phase := RecPhase.stopping }, ?_, rfl⟩, ?_, ?_⟩ <;>
      simp [stopRecording, stopRecordingClosure, ha, hr, hp]
  · refine ⟨?_, ?_, ⟨r, ?_, hp⟩, ?_, ?_⟩ <;>
      simp [stopRecording, stopRecordingClosure, ha, hr, hb]

/-- Effect of a successful onstop on a recorder in phase stopping:
exactly one artifact is built from the delivered chunks and prepended,
it becomes current, the stream field is cleared, the recorder
finalizes, and isRecording and the timer ref are untouched. -/
theorem onStop_true_spec (s : CState) (r : MediaRecorderObj)
    (hr : s.mediaRecorderRef = some r) (hp : r.phase = RecPhase.stopping) :
    ∃ a : Recording,
      (onStop true s).recordings = a :: s.recordings ∧
      (onStop true s).currentRecording = some a ∧
      a.size = s.chunks.sum ∧
      a.duration = r.capturedRecordingTime ∧
      (onStop true s).isRecording = s.isRecording ∧
      (onStop true s).timerRef = s.timerRef ∧
      (onStop true s).streamRef = none ∧
      (∃ r2, (onStop true s).mediaRecorderRef = some r2 ∧
        r2.phase = RecPhase.finalized) := by
  refine ⟨{ id := s.now, chunkSizes := s.chunks, url := s.nextUrl,
            duration := r.capturedRecordingTime, timestamp := s.now,
            size := s.chunks.sum },
    ?_, ?_, rfl, rfl, ?_, ?_, ?_,
    ⟨{ r with phase := RecPhase.finalized }, ?_, rfl⟩⟩ <;>
    simp [onStop, hr, hp]

/-- Effect of one user-driven session started from a non-recording
state: exactly one artifact is prepended to the history, it becomes
current, and the component ends not recording, with the interval
cleared, the stream field cleared and the recorder finalized. -/
theorem session_spec (k : Nat) (d : List Nat) (s : CState)
    (h : s.isRecording = false) :
    ∃ a : Recording,
      (run (sessionEvs k d) s).recordings = a :: s.recordings ∧
      (run (sessionEvs k d) s).currentRecording = some a ∧
      (run (sessionEvs k d) s).isRecording = false ∧
      (run (sessionEvs k d) s).timerRef = none ∧
      (run (sessionEvs k d) s).streamRef = none ∧
      (∃ r2, (run (sessionEvs k d) s).mediaRecorderRef = some r2 ∧
        r2.phase = RecPhase.finalized) := by
  have hsplit : sessionEvs k d =
      (Ev.start AcqResult.bothOk ::
        (List.replicate k Ev.timerFires ++ d.map Ev.dataChunk)) ++
      [Ev.stopClick, Ev.recorderStopped true] := by
    simp [sessionEvs]
  set s1 : CState := startRecording AcqResult.bothOk s with hs1
  have hstart : uiStep (Ev.start AcqResult.bothOk) s = s1 := by
    simp [uiStep, h]
  have hmid1 : Mid s1 := by
    left
    exact ⟨rfl, { capturedRecordingTime := s.recordingTime, phase := RecPhase.recording },
      rfl, rfl⟩
  have hall : ∀ e ∈ List.replicate k Ev.timerFires ++ d.map Ev.dataChunk,
      MidEv e = true := by
    intro e he
    rcases List.mem_append.1 he with hm | hm
    · rw [List.eq_of_mem_replicate hm]; rfl
    · rcases List.mem_map.1 hm with ⟨x, -, hx⟩
      rw [← hx]; rfl
  set s2 : CState := run (List.replicate k Ev.timerFires ++ d.map Ev.dataChunk) s1 with hs2
  rcases run_mid_spec _ hall s1 with ⟨g1, g2, g3⟩
  have hmid2 : Mid s2 := g3 hmid1
  set s3 : CState := stopRecording s2 with hs3
  rcases stopClick_after_mid s2 hmid2 with ⟨p1, p2, ⟨r, pr, pp⟩, p4, -⟩
  rcases onStop_true_spec s3 r pr pp with
    ⟨a, q1, q2, -, -, q5, q6, q7, q8⟩
  have key : run (sessionEvs k d) s = onStop true s3 := by
    have h1 : run (Ev.start AcqResult.bothOk ::
        (List.replicate k Ev.timerFires ++ d.map Ev.dataChunk)) s = s2 := by
      rw [run_cons, hstart, ← hs2]
    rw [hsplit, run_append, h1]
    rfl
  have hrecs : s3.recordings = s.recordings := by
    rw [hs3, p4, hs2, g1, hs1]
    rfl
  refine ⟨a, ?_, ?_, ?_, ?_, ?_, ?_⟩
  · rw [key, q1, hrecs]
  · rw [key]; exact q2
  · rw [key, q5, hs3]; exact p1
  · rw [key, q6, hs3]; exact p2
  · rw [key]; exact q7
  · rw [key]; exact q8

theorem runSessions_append_one (L : List (Nat × List Nat))
    (kd : Nat × List Nat) (s : CState) :
    runSessions (L ++ [kd]) s = run (sessionEvs kd.1 kd.2) (runSessions L s) := by
  simp [runSessions, List.foldl_append]

/-- Across any finite sequence of user-driven sessions from the mount
state: the component ends not recording, the history holds one entry
per session, and the current recording is the head of the history. -/
theorem runSessions_spec (L : List (Nat × List Nat)) :
    (runSessions L initState).isRecording = false ∧
    (runSessions L initState).recordings.length = L.length ∧
    (runSessions L initState).currentRecording =
      (runSessions L initState).recordings.head? := by
  induction L using List.reverseRecOn with
  | nil => exact ⟨rfl, rfl, rfl⟩
  | append_singleton L kd ih =>
    rcases session_spec kd.1 kd.2 (runSessions L initState) ih.1 with
      ⟨a, r1, r2, r3, -, -, -⟩
    rw [runSessions_append_one]
    refine ⟨r3, ?_, ?_⟩
    · rw [r1, List.length_cons, ih.2.1, List.length_append, List.length_singleton]
    · rw [r1, r2, List.head?_cons]

set_option maxRecDepth 4000

/-- C1: the claim states that every session is forcibly stopped
(recording halts, transition to Stopped) when the elapsed counter
reaches the 180-second cap, even if stop is never explicitly called.
On the first session after mount the interval callback invokes a
stopRecording closure whose captured isRecording is false, so the cap
branch of the updater is a no-op apart from returning 180: after a
successful start and 200 timer firings with no stop click, the counter
is pinned at 180, but the component is still recording, the recorder is
still in phase recording, and no artifact has been produced. -/
theorem c1_cap_does_not_stop_first_session :
    (run (Ev.start AcqResult.bothOk :: List.replicate 200 Ev.timerFires)
      initState).recordingTime = 180 ∧
    (run (Ev.start AcqResult.bothOk :: List.replicate 200 Ev.timerFires)
      initState).isRecording = true ∧
    (run (Ev.start AcqResult.bothOk :: List.replicate 200 Ev.timerFires)
      initState).mediaRecorderRef =
      some { capturedRecordingTime := 0, phase := RecPhase.recording } ∧
    (run (Ev.start AcqResult.bothOk :: List.replicate 200 Ev.timerFires)
      initState).recordings = [] := by
  decide

/-- C2: the claim states that stop produces an artifact whose duration
equals the elapsed seconds of that session, so two sessions of 5 and 10
seconds should give history durations [10, 5].  The onstop handler
reads the recordingTime value captured when startRecording was invoked
(0 on the first session, the final value of the previous session on
later ones), so the code produces durations [5, 0] instead, with the
current recording carrying 5 rather than 10. -/
theorem c2_duration_is_stale :
    (run (sessionEvs 5 [100] ++ sessionEvs 10 [50]) initState).recordings.map
      (fun r => r.duration) = [5, 0] ∧
    (run (sessionEvs 5 [100] ++ sessionEvs 10 [50]) initState).recordings.map
      (fun r => r.duration) ≠ [10, 5] ∧
    ((run (sessionEvs 5 [100] ++ sessionEvs 10 [50]) initState).currentRecording.map
      (fun r => r.duration)) = some 5 := by
  decide

/-- C3 counterexample: the claim states that invoking start while a
session is Active is rejected or a no-op and creates no second
concurrent session.  The startRecording function carries no
Active-state check: invoked directly on a state with one active
recorder it changes the state (the elapsed counter is reset to 0), it
leaves two concurrently recording recorders (the previous one is
dropped from the ref while still recording and its stream is dropped
while live), and the previous interval keeps running. -/
theorem c3_counterexample :
    (run [Ev.start AcqResult.bothOk, Ev.timerFires] initState).isRecording = true ∧
    activeRecorderCount (run [Ev.start AcqResult.bothOk, Ev.timerFires] initState) = 1 ∧
    activeRecorderCount (startRecording AcqResult.bothOk
      (run [Ev.start AcqResult.bothOk, Ev.timerFires] initState)) = 2 ∧
    startRecording AcqResult.bothOk
      (run [Ev.start AcqResult.bothOk, Ev.timerFires] initState) ≠
      run [Ev.start AcqResult.bothOk, Ev.timerFires] initState ∧
    (startRecording AcqResult.bothOk
      (run [Ev.start AcqResult.bothOk, Ev.timerFires] initState)).leakedStreams = 1 ∧
    (startRecording AcqResult.bothOk
      (run [Ev.start AcqResult.bothOk, Ev.timerFires] initState)).leakedTimers = 1 := by
  decide

/-- C3 amended: invoking start through the UI while a session is Active
is a no-op, because the start control is rendered only while
isRecording is false; the startRecording function itself performs no
Active-state check, and a direct call while Active starts a second
concurrent session. -/
theorem c3_ui_start_noop_while_active (acq : AcqResult) (s : CState)
    (h : s.isRecording = true) : uiStep (Ev.start acq) s = s := by
  simp [uiStep, h]

theorem c3_ui_start_noop_while_active_witness :
    (run [Ev.start AcqResult.bothOk] initState).isRecording = true ∧
    uiStep (Ev.start AcqResult.bothOk) (run [Ev.start AcqResult.bothOk] initState) =
      run [Ev.start AcqResult.bothOk] initState :=
  ⟨by decide,
    c3_ui_start_noop_while_active AcqResult.bothOk
      (run [Ev.start AcqResult.bothOk] initState) (by decide)⟩

/-- C4: when either acquisition fails (getDisplayMedia rejecting, or
getUserMedia rejecting after it), startRecording changes nothing but
the surfaced notifications: every state field and every ref is left as
it was - the component stays Idle, no partial session exists, no
artifact is produced - and the destructive failure toast is raised. -/
theorem c4_acquisition_failure_aborts_clean (s : CState) :
    startRecording AcqResult.displayFail s =
      { s with toasts := Toast.recordingFailed :: s.toasts } ∧
    startRecording AcqResult.audioFail s =
      { s with toasts := Toast.recordingFailed :: s.toasts } :=
  ⟨rfl, rfl⟩

/-- C5 counterexample: the claim states the capture tracks are released
even when artifact finalization fails partway.  The cleanup lines in
onstop run after blob assembly and object-URL creation, not in a
protected block: on a session whose finalization throws, the stream is
still live afterwards, no track was stopped, and no artifact exists. -/
theorem c5_counterexample :
    (run [Ev.start AcqResult.bothOk, Ev.timerFires, Ev.dataChunk 7,
      Ev.stopClick, Ev.recorderStopped false] initState).streamRef =
      some { live := true } ∧
    (run [Ev.start AcqResult.bothOk, Ev.timerFires, Ev.dataChunk 7,
      Ev.stopClick, Ev.recorderStopped false] initState).releasedStreams = 0 ∧
    (run [Ev.start AcqResult.bothOk, Ev.timerFires, Ev.dataChunk 7,
      Ev.stopClick, Ev.recorderStopped false] initState).currentRecording = none ∧
    (run [Ev.start AcqResult.bothOk, Ev.timerFires, Ev.dataChunk 7,
      Ev.stopClick, Ev.recorderStopped false] initState).recordings = [] := by
  decide

/-- C5 amended: after stop, the tracks of the session stream are
released exactly once provided finalization succeeds - the release
happens in that onstop run, a repeated onstop is a no-op - while a
finalization failure skips the release entirely and leaves the tracks
live. -/
theorem c5_release_only_on_successful_finalize (s : CState)
    (r : MediaRecorderObj) (st : StreamObj)
    (hr : s.mediaRecorderRef = some r) (hp : r.phase = RecPhase.stopping)
    (hs : s.streamRef = some st) (hl : st.live = true) :
    (onStop true s).releasedStreams = s.releasedStreams + 1 ∧
    (onStop true s).streamRef = none ∧
    onStop true (onStop true s) = onStop true s ∧
    (onStop false s).releasedStreams = s.releasedStreams ∧
    (onStop false s).streamRef = some st := by
  refine ⟨?_, ?_, ?_, ?_, ?_⟩ <;>
    simp [onStop, hr, hp, hs, hl]

theorem c5_release_only_on_successful_finalize_witness :
    (run [Ev.start AcqResult.bothOk, Ev.timerFires, Ev.stopClick]
      initState).mediaRecorderRef =
      some { capturedRecordingTime := 0, phase := RecPhase.stopping } ∧
    (onStop true (run [Ev.start AcqResult.bothOk, Ev.timerFires, Ev.stopClick]
      initState)).releasedStreams =
      (run [Ev.start AcqResult.bothOk, Ev.timerFires, Ev.stopClick]
        initState).releasedStreams + 1 :=
  ⟨by decide,
    (c5_release_only_on_successful_finalize
      (run [Ev.start AcqResult.bothOk, Ev.timerFires, Ev.stopClick] initState)
      { capturedRecordingTime := 0, phase := RecPhase.stopping }
      { live := true } (by decide) rfl (by decide) rfl).1⟩

/-- C6 counterexample: the claim states that a Stopped session with an
empty payload (zero delivered chunks) produces no artifact.  On a
session with no data events, onstop still builds a recording from the
empty chunk list: the history gains a zero-byte artifact and it becomes
the current recording. -/
theorem c6_counterexample :
    (run [Ev.start AcqResult.bothOk, Ev.timerFires, Ev.timerFires,
      Ev.stopClick, Ev.recorderStopped true] initState).chunks = [] ∧
    (run [Ev.start AcqResult.bothOk, Ev.timerFires, Ev.timerFires,
      Ev.stopClick, Ev.recorderStopped true] initState).recordings.map
      (fun r => r.size) = [0] ∧
    (run [Ev.start AcqResult.bothOk, Ev.timerFires, Ev.timerFires,
      Ev.stopClick, Ev.recorderStopped true] initState).currentRecording.isSome
      = true := by
  decide

/-- C6 amended: every Stopped session whose onstop finalization runs
yields exactly one artifact, including when the payload is empty - in
that case the artifact has size zero rather than being suppressed. -/
theorem c6_every_stop_yields_one_artifact (s : CState)
    (r : MediaRecorderObj)
    (hr : s.mediaRecorderRef = some r) (hp : r.phase = RecPhase.stopping) :
    ∃ a : Recording,
      (onStop true s).recordings = a :: s.recordings ∧
      (onStop true s).currentRecording = some a ∧
      a.size = s.chunks.sum ∧
      (s.chunks = [] → a.size = 0) := by
  rcases onStop_true_spec s r hr hp with ⟨a, h1, h2, h3, -, -, -, -, -⟩
  refine ⟨a, h1, h2, h3, fun hc => ?_⟩
  rw [h3, hc]
  rfl

theorem c6_every_stop_yields_one_artifact_witness :
    (run [Ev.start AcqResult.bothOk, Ev.timerFires, Ev.timerFires,
      Ev.stopClick] initState).mediaRecorderRef =
      some { capturedRecordingTime := 0, phase := RecPhase.stopping } ∧
    ∃ a : Recording,
      (onStop true (run [Ev.start AcqResult.bothOk, Ev.timerFires, Ev.timerFires,
        Ev.stopClick] initState)).recordings =
        a :: (run [Ev.start AcqResult.bothOk, Ev.timerFires, Ev.timerFires,
          Ev.stopClick] initState).recordings ∧
      (onStop true (run [Ev.start AcqResult.bothOk, Ev.timerFires, Ev.timerFires,
        Ev.stopClick] initState)).currentRecording = some a ∧
      a.size = (run [Ev.start AcqResult.bothOk, Ev.timerFires, Ev.timerFires,
        Ev.stopClick] initState).chunks.sum ∧
      ((run [Ev.start AcqResult.bothOk, Ev.timerFires, Ev.timerFires,
        Ev.stopClick] initState).chunks = [] → a.size = 0) :=
  ⟨by decide,
    c6_every_stop_yields_one_artifact
      (run [Ev.start AcqResult.bothOk, Ev.timerFires, Ev.timerFires,
        Ev.stopClick] initState)
      { capturedRecordingTime := 0, phase := RecPhase.stopping }
      (by decide) rfl⟩

/-- C7: calling stop while no session is Active is a no-op: with
isRecording false the guard in stopRecording fails, so the state -
current artifact, history, elapsed counter, refs, toasts - is returned
unchanged, no artifact is produced and no notification is raised. -/
theorem c7_stop_noop_when_not_active (s : CState)
    (h : s.isRecording = false) : stopRecording s = s := by
  cases hr : s.mediaRecorderRef <;>
    simp [stopRecording, stopRecordingClosure, h, hr]

theorem c7_stop_noop_when_not_active_witness :
    initState.isRecording = false ∧ stopRecording initState = initState :=
  ⟨rfl, c7_stop_noop_when_not_active initState rfl⟩

/-- C8: across any finite sequence of user-driven sessions the history
is newest-first: after the N sessions of L it has exactly N = L.length
entries, the current recording for preview is the head of the history,
and running one more session prepends exactly that session's artifact,
which becomes current. -/
theorem c8_history_newest_first (L : List (Nat × List Nat)) (k : Nat)
    (d : List Nat) :
    (runSessions L initState).recordings.length = L.length ∧
    (runSessions L initState).currentRecording =
      (runSessions L initState).recordings.head? ∧
    ∃ a : Recording,
      (runSessions (L ++ [(k, d)]) initState).recordings =
        a :: (runSessions L initState).recordings ∧
      (runSessions (L ++ [(k, d)]) initState).currentRecording = some a := by
  refine ⟨(runSessions_spec L).2.1, (runSessions_spec L).2.2, ?_⟩
  rcases session_spec k d (runSessions L initState) (runSessions_spec L).1 with
    ⟨a, h1, h2, -, -, -, -⟩
  rw [runSessions_append_one]
  exact ⟨a, h1, h2⟩

/-- C9: downloadRecording derives the filename from the timestamp of
the artifact by taking the first 19 characters of its ISO string - the
ISO 8601 timestamp without milliseconds - between the fixed pieces, for
every date; at the timestamp 2025-01-02T03:04:05 the filename is
exactly screen-recording-2025-01-02T03:04:05.webm. -/
theorem c9_download_filename_format :
    (∀ d : JSDate, downloadFilename d =
      "screen-recording-".toList ++ iso8601NoMillis d ++ ".webm".toList) ∧
    downloadFilename
      { year := 2025, month := 1, day := 2, hour := 3, minute := 4,
        second := 5, ms := 0 } =
      "screen-recording-2025-01-02T03:04:05.webm".toList := by
  constructor
  · intro d
    have hsplit : toISOString d =
        iso8601NoMillis d ++ ('.' :: pad3 d.ms ++ ['Z']) := by
      simp [toISOString, iso8601NoMillis]
    have hlen : (iso8601NoMillis d).length = 19 := by
      simp [iso8601NoMillis, pad4, pad2]
    rw [downloadFilename, hsplit, List.take_left' hlen]
  · decide

/-- C10: the elapsed-time counter update of the interval callback:
below 179 a tick increments by exactly one; from 179 on a tick writes
180, so once the counter has reached 179 it is pinned at 180 by every
subsequent tick - and this holds for any captured stopRecording
closure, whether or not the recorder actually stopped - and the counter
never exceeds 180. -/
theorem c10_counter_pinned_at_cap (s : CState) (tm : TimerObj)
    (h : s.timerRef = some tm) :
    (s.recordingTime < 179 →
      (timerTick s).recordingTime = s.recordingTime + 1) ∧
    (179 ≤ s.recordingTime → (timerTick s).recordingTime = 180) ∧
    (s.recordingTime ≤ 180 → (timerTick s).recordingTime ≤ 180) := by
  refine ⟨?_, ?_, ?_⟩
  · intro hlt
    have hge : ¬ 179 ≤ s.recordingTime := by omega
    simp [timerTick, h, hge]
  · intro hge
    simp [timerTick, h, hge]
  · intro hle
    by_cases hge : 179 ≤ s.recordingTime
    · simp [timerTick, h, hge]
    · simp [timerTick, h, hge]
      omega

theorem c10_counter_pinned_at_cap_witness :
    (run [Ev.start AcqResult.bothOk] initState).timerRef =
      some { capturedIsRecording := false } ∧
    (run [Ev.start AcqResult.bothOk] initState).recordingTime < 179 ∧
    (timerTick (run [Ev.start AcqResult.bothOk] initState)).recordingTime =
      (run [Ev.start AcqResult.bothOk] initState).recordingTime + 1 :=
  ⟨by decide, by decide,
    (c10_counter_pinned_at_cap (run [Ev.start AcqResult.bothOk] initState)
      { capturedIsRecording := false } (by decide)).1 (by decide)⟩
